import Mathlib

/-!
Verification of the gap-down scanner (gap_down_email.py and friends).

This file gives a shallow embedding of the pure core of gap_down_email.py:
the per-ticker price resolution of yahoo_gap_scan, the row construction of
polygon_gap_scan, the threshold classification, the sorting and bucketing
that build the final result dictionary, the previous-trading-day selection,
the pre-market minute-bar lookup of get_premarket_price, and the exit-code
skeleton of load_env / send_email / main.  Network calls are replaced by
explicit inputs (bar lists, lookup functions, a delivery flag); Python
floats are modelled as exact rationals.
-/

namespace GapDown

/-- The configuration dictionary built by load_env (gap_down_email.py,
lines 69-82), restricted to the fields the verified claims consume. -/
structure Cfg where
  DATA_SOURCE : String
  POLYGON_API_KEY : String
  MIN_GAP_DOWN_PCT : ℚ
  MIN_GAP_UP_PCT : ℚ
  MIN_MARKET_CAP : ℚ
  ONLY_OPTIONABLE : Bool
  RESEND_API_KEY : String
  EMAIL_FROM : String
  EMAIL_TO : String
  deriving DecidableEq, Repr

/-- One daily bar of the yfinance download (a row of the 5-day daily
DataFrame): its calendar date (days since an epoch chosen so that
weekday d = d % 7 with 0 = Monday) and its Open / Close columns. -/
structure DailyBar where
  date : Nat
  Open : ℚ
  Close : ℚ
  deriving DecidableEq, Repr

/-- One minute bar of the intraday download used by get_premarket_price:
its US/Eastern wall-clock hour and minute, and its Close column
(none models a NaN or missing value, pd.notna failing). -/
structure MinuteBar where
  hour : Nat
  minute : Nat
  Close : Option ℚ
  deriving DecidableEq, Repr

/-- The stock_data dictionary built per successful ticker
(gap_down_email.py lines 518-526 and 292-300). -/
structure StockData where
  ticker : String
  prev_close : ℚ
  today_open : ℚ
  gap_pct : ℚ
  deriving DecidableEq, Repr

/-- The three-way classification implied by the if/elif/else at
lines 533-536 (yahoo) and 331-339 (polygon). -/
inductive Classification where
  | GAP_DOWN : Classification
  | GAP_UP : Classification
  | NEUTRAL : Classification
  deriving DecidableEq, Repr

/-- The dictionary returned by both scans (lines 356-360 and 579-583). -/
structure ScanResult where
  gap_downs : List StockData
  gap_ups : List StockData
  all_data : List StockData
  deriving DecidableEq, Repr

/-- Outcome of the per-ticker data acquisition inside the yahoo_gap_scan
loop.  err models an exception raised while downloading (caught at line
538); ok carries the 5-day daily window together with the minute bars and
the weekend flag consumed by get_premarket_price. -/
inductive FetchOutcome where
  | err : FetchOutcome
  | ok : List DailyBar → List MinuteBar → Bool → FetchOutcome
  deriving DecidableEq, Repr

/-- The timestamp test of get_premarket_price (lines 395-396): a minute
bar matches when its US/Eastern time lies in the window from thirty
minutes before to thirty minutes after target_hour:00, literally
(hour == target_hour and 0 <= minute <= 30) or
(hour == target_hour - 1 and minute >= 30).  The subtraction is on
Python integers, hence the Int cast. -/
def premarket_window_match (target_hour : Nat) (b : MinuteBar) : Bool :=
  (b.hour == target_hour && decide (b.minute ≤ 30)) ||
  ((b.hour : Int) == (target_hour : Int) - 1 && decide (30 ≤ b.minute))

/-- The bar loop of get_premarket_price (lines 389-412): return the Close
of the first window-matching bar whose Close is present; a matching bar
with a missing Close is skipped and the scan continues (the notna check
falls through, as does a KeyError / IndexError). -/
def premarket_scan (target_hour : Nat) : List MinuteBar → Option ℚ
  | [] => none
  | b :: rest =>
    if premarket_window_match target_hour b then
      match b.Close with
      | some c => some c
      | none => premarket_scan target_hour rest
    else premarket_scan target_hour rest

/-- get_premarket_price (lines 362-416): none on weekends (line 377),
none when the minute data is empty or no bar matches, otherwise the
matched close.  The except at line 414 also produces none and is modelled
by the caller passing an empty bar list. -/
def get_premarket_price (is_weekend : Bool) (bars : List MinuteBar)
    (target_hour : Nat) : Option ℚ :=
  if is_weekend then none
  else premarket_scan target_hour bars

/-- The previous-close selection of yahoo_gap_scan (lines 466-484): the
5-day daily window is rejected when it holds fewer than two bars (line
467); otherwise the Close of the second-to-last bar (iloc[-2], line 484)
is used, whatever its date. -/
def resolve_previous_close (bars : List DailyBar) : Option ℚ :=
  if h : bars.length < 2 then none
  else some (bars.get ⟨bars.length - 2, by omega⟩).Close

/-- The previous-session date the yahoo path actually uses (line 480
prints it): the date of the second-to-last bar of the window. -/
def yahoo_prev_close_date (bars : List DailyBar) : Option Nat :=
  if h : bars.length < 2 then none
  else some (bars.get ⟨bars.length - 2, by omega⟩).date

/-- One iteration of the per-ticker loop of yahoo_gap_scan (lines
456-544), producing the stock_data record for a successful ticker and
none for a counted failure.  Failures are: a raised download
(FetchOutcome.err), a window of fewer than two daily bars (line 467), and
a zero previous close (the float division at line 508 raises
ZeroDivisionError, absorbed by the except at line 538).  A pre-market
price, when get_premarket_price finds one, replaces the regular open of
the last daily bar (lines 487-500). -/
def processTicker (t : String) (out : FetchOutcome) : Option StockData :=
  match out with
  | .err => none
  | .ok daily minute is_weekend =>
    if h : daily.length < 2 then none
    else
      let prev_close_price := (daily.get ⟨daily.length - 2, by omega⟩).Close
      let regular_open := (daily.get ⟨daily.length - 1, by omega⟩).Open
      let premarket_data := get_premarket_price is_weekend minute 8
      let today_open_price := premarket_data.getD regular_open
      if prev_close_price = 0 then none
      else some { ticker := t, prev_close := prev_close_price,
                  today_open := today_open_price,
                  gap_pct := (today_open_price - prev_close_price) / prev_close_price * 100 }

/-- The successful records accumulated by the loop, in input order: the
all_data list as it stands before the final sort at line 574. -/
def scanned (tickers : List String) (fetch : String → FetchOutcome) :
    List StockData :=
  tickers.filterMap (fun t => processTicker t (fetch t))

/-- The successful_downloads counter of yahoo_gap_scan (line 510). -/
def successful_downloads (tickers : List String)
    (fetch : String → FetchOutcome) : Nat :=
  (scanned tickers fetch).length

/-- The failed_downloads counter of yahoo_gap_scan (lines 468, 502, 539):
one per ticker whose iteration produced no record. -/
def failed_downloads (tickers : List String)
    (fetch : String → FetchOutcome) : Nat :=
  (tickers.filter (fun t => (processTicker t (fetch t)).isNone)).length

/-- The categorization of lines 533-536 and 331-339 as a function of the
gap and the two thresholds: if gap_pct <= MIN_GAP_DOWN_PCT then gap down,
elif gap_pct >= MIN_GAP_UP_PCT then gap up, else neutral. -/
def classify (cfg : Cfg) (gap_pct : ℚ) : Classification :=
  if gap_pct ≤ cfg.MIN_GAP_DOWN_PCT then .GAP_DOWN
  else if cfg.MIN_GAP_UP_PCT ≤ gap_pct then .GAP_UP
  else .NEUTRAL

/-- The rows landing in gap_down_rows (line 533-534): the first branch of
the if/elif applied to each successful record in order. -/
def gap_down_rows (cfg : Cfg) (all : List StockData) : List StockData :=
  all.filter (fun r => decide (r.gap_pct ≤ cfg.MIN_GAP_DOWN_PCT))

/-- The rows landing in gap_up_rows (lines 535-536): records reaching the
elif branch, i.e. failing the down test and passing the up test. -/
def gap_up_rows (cfg : Cfg) (all : List StockData) : List StockData :=
  all.filter (fun r =>
    !decide (r.gap_pct ≤ cfg.MIN_GAP_DOWN_PCT) &&
    decide (cfg.MIN_GAP_UP_PCT ≤ r.gap_pct))

/-- Ascending comparison used by sort(key=lambda x: x["gap_pct"]). -/
def gapLE (a b : StockData) : Prop := a.gap_pct ≤ b.gap_pct

/-- Descending comparison used by sort(key=..., reverse=True). -/
def gapGE (a b : StockData) : Prop := b.gap_pct ≤ a.gap_pct

instance : DecidableRel gapLE :=
  fun a b => inferInstanceAs (Decidable (a.gap_pct ≤ b.gap_pct))

instance : DecidableRel gapGE :=
  fun a b => inferInstanceAs (Decidable (b.gap_pct ≤ a.gap_pct))

instance : IsTotal StockData gapLE :=
  ⟨fun a b => le_total a.gap_pct b.gap_pct⟩

instance : IsTrans StockData gapLE :=
  ⟨fun _ _ _ hab hbc => le_trans hab hbc⟩

instance : IsTotal StockData gapGE :=
  ⟨fun a b => le_total b.gap_pct a.gap_pct⟩

instance : IsTrans StockData gapGE :=
  ⟨fun _ _ _ hab hbc => le_trans hbc hab⟩

/-- The ascending stable sort of Python list.sort with the gap_pct key
(lines 352-353, 572, 574), rendered as a stable insertion sort. -/
def sortByGapAsc (l : List StockData) : List StockData :=
  l.insertionSort gapLE

/-- The descending stable sort of list.sort(..., reverse=True)
(lines 354 and 573). -/
def sortByGapDesc (l : List StockData) : List StockData :=
  l.insertionSort gapGE

/-- yahoo_gap_scan (lines 418-583) as a function of the configuration,
the ticker universe and the per-ticker data: accumulate the successful
records in order, bucket them by the threshold tests, and sort the three
views (lines 571-574). -/
def yahoo_gap_scan (cfg : Cfg) (tickers : List String)
    (fetch : String → FetchOutcome) : ScanResult :=
  let all_data := scanned tickers fetch
  { gap_downs := sortByGapAsc (gap_down_rows cfg all_data)
    gap_ups := sortByGapDesc (gap_up_rows cfg all_data)
    all_data := sortByGapAsc all_data }

/-- The reference metadata of the polygon path (lines 266-283). -/
structure PolyMeta where
  market_cap : ℚ
  optionable : Bool
  name : String
  deriving DecidableEq, Repr

/-- The row construction of polygon_gap_scan (lines 285-302): each ticker
holding a today price pairs with its previous close; a ticker whose
previous close is missing or zero, or whose today price is zero, is
skipped (if not c_prev or not o: continue, lines 287-289). -/
def polygon_rows (open_today : List (String × ℚ))
    (prev_close : String → Option ℚ) : List StockData :=
  open_today.filterMap (fun p =>
    let t : String := p.1
    let o : ℚ := p.2
    match prev_close t with
    | none => none
    | some c =>
      if c = 0 ∨ o = 0 then none
      else some { ticker := t, prev_close := c, today_open := o,
                  gap_pct := (o - c) / c * 100 })

/-- The metadata filter of the polygon path (lines 324-329): a ticker
present in meta is skipped on low market cap, or, when ONLY_OPTIONABLE is
set, on not being optionable. -/
def polygon_skip (cfg : Cfg) (meta : String → Option PolyMeta)
    (t : String) : Bool :=
  match meta t with
  | none => false
  | some m =>
    if m.market_cap < cfg.MIN_MARKET_CAP then true
    else if cfg.ONLY_OPTIONABLE && !m.optionable then true
    else false

/-- The aggregation tail of polygon_gap_scan (lines 317-360): bucket the
unfiltered rows through the skip test and the threshold if/elif, then
sort the three views (lines 352-354). -/
def polygon_gap_scan (cfg : Cfg) (open_today : List (String × ℚ))
    (prev_close : String → Option ℚ)
    (meta : String → Option PolyMeta) : ScanResult :=
  let rows := polygon_rows open_today prev_close
  let downs := rows.filter (fun r =>
    !polygon_skip cfg meta r.ticker &&
    decide (r.gap_pct ≤ cfg.MIN_GAP_DOWN_PCT))
  let ups := rows.filter (fun r =>
    !polygon_skip cfg meta r.ticker &&
    !decide (r.gap_pct ≤ cfg.MIN_GAP_DOWN_PCT) &&
    decide (cfg.MIN_GAP_UP_PCT ≤ r.gap_pct))
  { gap_downs := sortByGapAsc downs
    gap_ups := sortByGapDesc ups
    all_data := sortByGapAsc rows }

/-- Weekday of a day count, with day 0 a Monday: 0 = Monday, ...,
4 = Friday, 5 = Saturday, 6 = Sunday. -/
def weekday (d : Nat) : Nat := d % 7

/-- The previous-trading-day selection of polygon_gap_scan (lines
151-159): the value the marketstatus endpoint reports when present,
otherwise literally now - timedelta(days=1), with no weekend
adjustment. -/
def polygon_prev_trading_day (api_prev : Option Nat) (today : Nat) : Nat :=
  match api_prev with
  | some d => d
  | none => today - 1

/-- Modelled from the spec: the repository has no weekend-skipping
calendar computation, so this follows the spec text "starting from now's
local calendar date, step backward one day at a time while the candidate
date's weekday is Saturday or Sunday".  The fuel bounds the loop. -/
def skip_weekends_back : Nat → Nat → Nat
  | 0, d => d
  | fuel + 1, d => if 5 ≤ weekday d then skip_weekends_back fuel (d - 1) else d

/-- Modelled from the spec: the Calendar Helper contract
most_recent_closed_session(now) for a run before the nominal session
close (the situation of all three spec scenarios), so the search starts
one day back and then skips weekend days. -/
def most_recent_closed_session (today : Nat) : Nat :=
  skip_weekends_back 7 (today - 1)

/-- Modelled from the spec: resolve_previous_close is described as taking
"the close of the bar whose date equals the most recent closed session";
the code instead takes the second-to-last bar, so this definition exists
for comparison only. -/
def spec_resolve_previous_close (bars : List DailyBar)
    (session_date : Nat) : Option ℚ :=
  (bars.find? (fun b => b.date == session_date)).bind
    (fun b => some b.Close)

/-- Modelled from the spec: the target-time resolver is described as
"matching a bar whose exchange-local timestamp equals the requested
hour:minute exactly" (the requested minute is 0 for the 8:00 AM target);
the code instead accepts a sixty-minute window, so this definition exists
for comparison only. -/
def spec_resolve_at_time (bars : List MinuteBar) (hour minute : Nat) :
    Option ℚ :=
  (bars.find? (fun b => b.hour == hour && b.minute == minute)).bind
    (fun b => b.Close)

/-- The startup check of load_env (lines 91-97): missing email settings
exit with code 2 before any scanning. -/
def load_env_exit (cfg : Cfg) : Option Nat :=
  if cfg.RESEND_API_KEY = "" || cfg.EMAIL_FROM = "" || cfg.EMAIL_TO = ""
  then some 2 else none

/-- The delivery outcome of send_email (lines 675-729): exit 3 when the
API key is the unconfigured placeholder (line 676-679) or the provider
call fails (lines 724-729); otherwise the report goes out. -/
def send_email_exit (cfg : Cfg) (delivery_ok : Bool) : Option Nat :=
  if cfg.RESEND_API_KEY = "" ||
     cfg.RESEND_API_KEY = "your_resend_api_key_here" then some 3
  else if delivery_ok then none else some 3

/-- The tail of main (lines 750-752): hand the scan output to send_email;
exit 3 on delivery failure, else exit 0 with the report delivered. -/
def deliver (cfg : Cfg) (data : ScanResult) (delivery_ok : Bool) :
    Nat × Option ScanResult :=
  match send_email_exit cfg delivery_ok with
  | some e => (e, none)
  | none => (0, some data)

/-- main (lines 731-758): the process exit code paired with the
ScanResult a delivered report was built from (none when no report went
out).  The polygon branch also exits 2 on a missing POLYGON_API_KEY
(lines 147-149); an unrecognized DATA_SOURCE exits 2 (lines 746-748).
The except at line 754 (exit 1 on unexpected exceptions) has no
counterpart here because the embedded pipeline is total. -/
def main_run (cfg : Cfg) (tickers : List String)
    (fetch : String → FetchOutcome) (open_today : List (String × ℚ))
    (prev_close : String → Option ℚ) (meta : String → Option PolyMeta)
    (delivery_ok : Bool) : Nat × Option ScanResult :=
  match load_env_exit cfg with
  | some e => (e, none)
  | none =>
    if cfg.DATA_SOURCE = "polygon" then
      if cfg.POLYGON_API_KEY = "" then (2, none)
      else deliver cfg (polygon_gap_scan cfg open_today prev_close meta)
             delivery_ok
    else if cfg.DATA_SOURCE = "yahoo" then
      deliver cfg (yahoo_gap_scan cfg tickers fetch) delivery_ok
    else (2, none)

/-! ## Sample inputs used by witnesses and counterexamples -/

/-- A valid yahoo-source configuration with the default thresholds
MIN_GAP_DOWN_PCT = -5 and MIN_GAP_UP_PCT = 1. -/
def sample_cfg_yahoo : Cfg :=
  ⟨"yahoo", "", -5, 1, 0, false, "rk", "from@x", "to@x"⟩

/-- Per-ticker data: ticker B gaps up 25 percent (40 to 50), every other
ticker gaps down 5.5 percent (close 100, open 94.5). -/
def sample_fetch_good : String → FetchOutcome := fun t =>
  if t = "B" then .ok [⟨0, 40, 40⟩, ⟨1, 50, 50⟩] [] false
  else .ok [⟨0, 100, 100⟩, ⟨1, 94.5, 95⟩] [] false

/-- The record the scan builds for a previous close of 100.00 and a
current price of 94.50. -/
def sample_down_record : StockData := ⟨"A", 100, 94.5, -5.5⟩

/-- The record polygon_rows builds for ticker C: previous close 40,
today 30, gap -25. -/
def sample_poly_record : StockData := ⟨"C", 40, 30, -25⟩

/-! ## Helper lemmas -/

/-- Every record processTicker emits stores the gap formula of line 508,
and its previous close is nonzero. -/
lemma processTicker_gap {t : String} {out : FetchOutcome} {r : StockData}
    (h : processTicker t out = some r) :
    r.prev_close ≠ 0 ∧
      r.gap_pct = (r.today_open - r.prev_close) / r.prev_close * 100 := by
  cases out with
  | err => exact Option.noConfusion h
  | ok daily minute w =>
    simp only [processTicker] at h
    split at h
    · exact Option.noConfusion h
    · split at h
      · exact Option.noConfusion h
      · injection h with h2
        subst h2
        exact ⟨by assumption, rfl⟩

/-- Every record polygon_rows emits stores the gap formula of line 290,
and its previous close is nonzero. -/
lemma polygon_rows_gap {open_today : List (String × ℚ)}
    {prev_close : String → Option ℚ} {s : StockData}
    (hs : s ∈ polygon_rows open_today prev_close) :
    s.prev_close ≠ 0 ∧
      s.gap_pct = (s.today_open - s.prev_close) / s.prev_close * 100 := by
  obtain ⟨p, _, hp⟩ := List.mem_filterMap.1 hs
  simp only at hp
  split at hp
  · exact Option.noConfusion hp
  · split at hp
    · exact Option.noConfusion hp
    next hcond =>
      injection hp with h2
      subst h2
      exact ⟨fun h0 => hcond (Or.inl h0), rfl⟩

/-- Membership is invariant under the ascending sort. -/
lemma mem_sortByGapAsc {l : List StockData} {x : StockData} :
    x ∈ sortByGapAsc l ↔ x ∈ l :=
  List.mem_insertionSort gapLE

/-- Membership is invariant under the descending sort. -/
lemma mem_sortByGapDesc {l : List StockData} {x : StockData} :
    x ∈ sortByGapDesc l ↔ x ∈ l :=
  List.mem_insertionSort gapGE

/-! ## Claims -/

/-- Claim C1: every record produced by a scan (polygon or yahoo path)
stores gap_pct = (current_price - prev_close_price) / prev_close_price
* 100; the previous close of a produced record is never zero, so the
formula is well defined.  The witness instantiates the yahoo record at
previous close 100.00 and current price 94.50, whose stored gap_pct is
-5.50. -/
theorem C1_gap_formula (cfg : Cfg) (tickers : List String)
    (fetch : String → FetchOutcome) (open_today : List (String × ℚ))
    (prev_close : String → Option ℚ) (r s : StockData)
    (hr : r ∈ (yahoo_gap_scan cfg tickers fetch).all_data)
    (hs : s ∈ polygon_rows open_today prev_close) :
    (r.prev_close ≠ 0 ∧
      r.gap_pct = (r.today_open - r.prev_close) / r.prev_close * 100) ∧
    (s.prev_close ≠ 0 ∧
      s.gap_pct = (s.today_open - s.prev_close) / s.prev_close * 100) := by
  refine ⟨?_, polygon_rows_gap hs⟩
  have hr2 : r ∈ scanned tickers fetch := mem_sortByGapAsc.1 hr
  obtain ⟨t, _, ht⟩ := List.mem_filterMap.1 hr2
  exact processTicker_gap ht

/-- Witness for C1: the record with previous close 100.00 and current
price 94.50 is produced by the sample yahoo scan, stores
gap_pct = -5.50, and -5.50 is the value of the formula. -/
theorem C1_gap_formula_witness :
    (sample_down_record.prev_close ≠ 0 ∧
      sample_down_record.gap_pct =
        (sample_down_record.today_open - sample_down_record.prev_close) /
          sample_down_record.prev_close * 100) ∧
    (sample_poly_record.prev_close ≠ 0 ∧
      sample_poly_record.gap_pct =
        (sample_poly_record.today_open - sample_poly_record.prev_close) /
          sample_poly_record.prev_close * 100) :=
  C1_gap_formula sample_cfg_yahoo ["A", "B"] sample_fetch_good
    [("C", 30)] (fun _ => some 40) sample_down_record sample_poly_record
    (by norm_num [yahoo_gap_scan, scanned, sortByGapAsc, sample_fetch_good,
      sample_cfg_yahoo, sample_down_record, processTicker,
      get_premarket_price, premarket_scan, gapLE])
    (by norm_num [polygon_rows, sample_poly_record])

/-- The first branch of the if/elif fires exactly on the gap-down test. -/
lemma classify_down_iff (cfg : Cfg) (g : ℚ) :
    classify cfg g = Classification.GAP_DOWN ↔ g ≤ cfg.MIN_GAP_DOWN_PCT := by
  unfold classify
  split_ifs <;> simp_all

/-- The elif branch fires exactly when the down test fails and the up
test passes. -/
lemma classify_up_iff (cfg : Cfg) (g : ℚ) :
    classify cfg g = Classification.GAP_UP ↔
      ¬ g ≤ cfg.MIN_GAP_DOWN_PCT ∧ cfg.MIN_GAP_UP_PCT ≤ g := by
  unfold classify
  split_ifs <;> simp_all

/-- Claim C2: classification is a pure function of gap_pct and the two
thresholds (the function classify, which both scan paths realize through
their bucket filters): a gap exactly at the down threshold classifies
GAP_DOWN; with down_threshold < 0 < up_threshold, a gap exactly at the up
threshold classifies GAP_UP and a gap strictly between the thresholds
classifies NEUTRAL; the down check runs first, so a gap satisfying both
threshold tests settles as GAP_DOWN. -/
theorem C2_classification (cfg cfg2 : Cfg) (g g2 : ℚ)
    (all : List StockData)
    (hdown : cfg.MIN_GAP_DOWN_PCT < 0) (hup : 0 < cfg.MIN_GAP_UP_PCT)
    (hg1 : cfg.MIN_GAP_DOWN_PCT < g) (hg2 : g < cfg.MIN_GAP_UP_PCT)
    (hb1 : g2 ≤ cfg2.MIN_GAP_DOWN_PCT) (hb2 : cfg2.MIN_GAP_UP_PCT ≤ g2) :
    classify cfg cfg.MIN_GAP_DOWN_PCT = Classification.GAP_DOWN ∧
    classify cfg cfg.MIN_GAP_UP_PCT = Classification.GAP_UP ∧
    classify cfg g = Classification.NEUTRAL ∧
    classify cfg2 g2 = Classification.GAP_DOWN ∧
    gap_down_rows cfg all =
      all.filter (fun r => decide (classify cfg r.gap_pct = Classification.GAP_DOWN)) ∧
    gap_up_rows cfg all =
      all.filter (fun r => decide (classify cfg r.gap_pct = Classification.GAP_UP)) := by
  refine ⟨?_, ?_, ?_, ?_, ?_, ?_⟩
  · exact (classify_down_iff cfg _).2 le_rfl
  · exact (classify_up_iff cfg _).2 ⟨fun h => absurd (h.trans hdown.le) (not_le.2 hup), le_rfl⟩
  · unfold classify
    rw [if_neg (not_le.2 hg1), if_neg (not_le.2 hg2)]
  · exact (classify_down_iff cfg2 _).2 hb1
  · refine List.filter_congr ?_
    intro r _
    rw [decide_eq_decide]
    exact (classify_down_iff cfg r.gap_pct).symm
  · refine List.filter_congr ?_
    intro r _
    by_cases h1 : r.gap_pct ≤ cfg.MIN_GAP_DOWN_PCT <;>
      by_cases h2 : cfg.MIN_GAP_UP_PCT ≤ r.gap_pct <;>
        simp [h1, h2, classify_up_iff]

/-- Claim C3: in every ScanResult, gap_downs is non-decreasing in
gap_pct, gap_ups is non-increasing in gap_pct, and all_data is
non-decreasing in gap_pct, on both scan paths. -/
theorem C3_sorting (cfg : Cfg) (tickers : List String)
    (fetch : String → FetchOutcome) (open_today : List (String × ℚ))
    (prev_close : String → Option ℚ) (meta : String → Option PolyMeta) :
    (yahoo_gap_scan cfg tickers fetch).gap_downs.Pairwise
      (fun a b => a.gap_pct ≤ b.gap_pct) ∧
    (yahoo_gap_scan cfg tickers fetch).gap_ups.Pairwise
      (fun a b => b.gap_pct ≤ a.gap_pct) ∧
    (yahoo_gap_scan cfg tickers fetch).all_data.Pairwise
      (fun a b => a.gap_pct ≤ b.gap_pct) ∧
    (polygon_gap_scan cfg open_today prev_close meta).gap_downs.Pairwise
      (fun a b => a.gap_pct ≤ b.gap_pct) ∧
    (polygon_gap_scan cfg open_today prev_close meta).gap_ups.Pairwise
      (fun a b => b.gap_pct ≤ a.gap_pct) ∧
    (polygon_gap_scan cfg open_today prev_close meta).all_data.Pairwise
      (fun a b => a.gap_pct ≤ b.gap_pct) := by
  refine ⟨?_, ?_, ?_, ?_, ?_, ?_⟩ <;>
    first
      | exact List.sorted_insertionSort gapLE _
      | exact List.sorted_insertionSort gapGE _

/-- A deliberately inconsistent configuration whose down threshold (2)
sits above its up threshold (1), for the both-tests-satisfied tie case. -/
def sample_cfg_weird : Cfg :=
  ⟨"yahoo", "", 2, 1, 0, false, "rk", "from@x", "to@x"⟩

/-- Witness for C2 at the default thresholds -5 and 1: the boundary
values classify as claimed, 0 is neutral, and with the inconsistent
thresholds of sample_cfg_weird the value 3/2 satisfies both tests and
settles as GAP_DOWN. -/
theorem C2_classification_witness :
    classify sample_cfg_yahoo sample_cfg_yahoo.MIN_GAP_DOWN_PCT
      = Classification.GAP_DOWN ∧
    classify sample_cfg_yahoo sample_cfg_yahoo.MIN_GAP_UP_PCT
      = Classification.GAP_UP ∧
    classify sample_cfg_yahoo 0 = Classification.NEUTRAL ∧
    classify sample_cfg_weird (3 / 2) = Classification.GAP_DOWN ∧
    gap_down_rows sample_cfg_yahoo [] =
      List.filter
        (fun r => decide (classify sample_cfg_yahoo r.gap_pct = Classification.GAP_DOWN)) [] ∧
    gap_up_rows sample_cfg_yahoo [] =
      List.filter
        (fun r => decide (classify sample_cfg_yahoo r.gap_pct = Classification.GAP_UP)) [] :=
  C2_classification sample_cfg_yahoo sample_cfg_weird 0 (3 / 2) []
    (by norm_num [sample_cfg_yahoo]) (by norm_num [sample_cfg_yahoo])
    (by norm_num [sample_cfg_yahoo]) (by norm_num [sample_cfg_yahoo])
    (by norm_num [sample_cfg_weird]) (by norm_num [sample_cfg_weird])

/-- Claim C4 counterexample: a universe whose single symbol fails to
resolve yields zero successful downloads, yet the run is not fatal: with
a valid configuration and working delivery, main exits 0 and a report
built from the empty ScanResult is produced, contradicting "output
discarded and no report produced ... when zero symbols resolved". -/
theorem C4_counterexample :
    successful_downloads ["AAPL"] (fun _ => FetchOutcome.err) = 0 ∧
    failed_downloads ["AAPL"] (fun _ => FetchOutcome.err) = 1 ∧
    main_run sample_cfg_yahoo ["AAPL"] (fun _ => FetchOutcome.err) []
      (fun _ => none) (fun _ => none) true = (0, some ⟨[], [], []⟩) :=
  ⟨rfl, rfl, rfl⟩

/-- Claim C4, amended: a per-symbol resolution failure is absorbed
(counted as one failed download) and iteration continues with the next
symbol, but zero successful records is NOT fatal: with a valid
configuration and working delivery the run still exits 0 and delivers a
report built from the empty ScanResult. -/
theorem C4_failure_absorbed (cfg : Cfg) (t : String) (rest : List String)
    (fetch : String → FetchOutcome) (tickers2 : List String)
    (fetch2 : String → FetchOutcome)
    (hfail : processTicker t (fetch t) = none)
    (henv : load_env_exit cfg = none) (hsrc : cfg.DATA_SOURCE = "yahoo")
    (hmail : send_email_exit cfg true = none)
    (hzero : successful_downloads tickers2 fetch2 = 0) :
    scanned (t :: rest) fetch = scanned rest fetch ∧
    failed_downloads (t :: rest) fetch = failed_downloads rest fetch + 1 ∧
    yahoo_gap_scan cfg (t :: rest) fetch = yahoo_gap_scan cfg rest fetch ∧
    main_run cfg tickers2 fetch2 [] (fun _ => none) (fun _ => none) true
      = (0, some ⟨[], [], []⟩) := by
  have h1 : scanned (t :: rest) fetch = scanned rest fetch := by
    simp [scanned, List.filterMap_cons, hfail]
  have hemp : scanned tickers2 fetch2 = [] :=
    List.length_eq_zero.1 hzero
  have hscan2 : yahoo_gap_scan cfg tickers2 fetch2 = ⟨[], [], []⟩ := by
    simp [yahoo_gap_scan, hemp, gap_down_rows, gap_up_rows,
      sortByGapAsc, sortByGapDesc]
  refine ⟨h1, ?_, ?_, ?_⟩
  · simp [failed_downloads, List.filter_cons, hfail]
  · simp only [yahoo_gap_scan, h1]
  · rw [main_run, henv]
    simp only [hsrc]
    rw [if_neg (by decide), if_pos trivial, hscan2]
    simp [deliver, hmail]

/-- Witness for C4 at a concrete failing universe. -/
theorem C4_failure_absorbed_witness :
    scanned ["A"] (fun _ => FetchOutcome.err)
      = scanned [] (fun _ => FetchOutcome.err) ∧
    failed_downloads ["A"] (fun _ => FetchOutcome.err)
      = failed_downloads [] (fun _ => FetchOutcome.err) + 1 ∧
    yahoo_gap_scan sample_cfg_yahoo ["A"] (fun _ => FetchOutcome.err)
      = yahoo_gap_scan sample_cfg_yahoo [] (fun _ => FetchOutcome.err) ∧
    main_run sample_cfg_yahoo ["MSFT"] (fun _ => FetchOutcome.err) []
      (fun _ => none) (fun _ => none) true = (0, some ⟨[], [], []⟩) :=
  C4_failure_absorbed sample_cfg_yahoo "A" [] (fun _ => FetchOutcome.err)
    ["MSFT"] (fun _ => FetchOutcome.err) rfl rfl rfl rfl rfl

/-- Claim C5 counterexample: the input universe lists symbol A twice and
both occurrences resolve; the resulting all_data view holds two records
for A (length 2), so the later occurrence is not dropped, contradicting
"retain exactly the record that came first and drop the later one". -/
theorem C5_counterexample :
    (yahoo_gap_scan sample_cfg_yahoo ["A", "A"] sample_fetch_good).all_data.length = 2 ∧
    ((yahoo_gap_scan sample_cfg_yahoo ["A", "A"] sample_fetch_good).all_data.countP
      (fun r => r.ticker == "A")) = 2 := by
  constructor <;>
    norm_num [yahoo_gap_scan, scanned, sortByGapAsc, sample_fetch_good,
      sample_cfg_yahoo, processTicker, get_premarket_price, premarket_scan,
      gapLE, List.countP_cons]

/-- The number of accumulated records equals the number of successfully
resolved ticker occurrences: no deduplication happens on the way. -/
lemma scanned_length (tickers : List String)
    (fetch : String → FetchOutcome) :
    (scanned tickers fetch).length
      = (tickers.filter (fun t => (processTicker t (fetch t)).isSome)).length := by
  induction tickers with
  | nil => rfl
  | cons t ts ih =>
    simp only [scanned, List.filterMap_cons, List.filter_cons] at ih ⊢
    cases h : processTicker t (fetch t) <;> simp [h, ih]

/-- Claim C5, amended: the yahoo scan performs no deduplication by
symbol: every successfully resolved occurrence of a symbol in the input
sequence contributes its own record to all_data, so a duplicated symbol
yields duplicated records. -/
theorem C5_no_dedup (cfg : Cfg) (tickers : List String)
    (fetch : String → FetchOutcome) :
    (yahoo_gap_scan cfg tickers fetch).all_data.length
      = (tickers.filter (fun t => (processTicker t (fetch t)).isSome)).length := by
  simp only [yahoo_gap_scan, sortByGapAsc, List.length_insertionSort]
  exact scanned_length tickers fetch

/-- Claim C6 counterexample, at day 13 (a Sunday; day 0 is a Monday).
The claimed weekend-skipping step (spec-modelled as
most_recent_closed_session) gives Friday, day 11.  The code has no such
computation: the polygon fallback (absent an API answer) gives day 12, a
Saturday, and the yahoo path reads the second-to-last bar of its window
(for a Monday-to-Friday window of days 7..11, that is Thursday, day 10),
contradicting "run at Sunday 21:00 ET yields Friday". -/
theorem C6_counterexample :
    weekday 13 = 6 ∧
    polygon_prev_trading_day none 13 = 12 ∧
    weekday (polygon_prev_trading_day none 13) = 5 ∧
    most_recent_closed_session 13 = 11 ∧
    weekday 11 = 4 ∧
    polygon_prev_trading_day none 13 ≠ most_recent_closed_session 13 ∧
    yahoo_prev_close_date
      [⟨7, 1, 1⟩, ⟨8, 1, 1⟩, ⟨9, 1, 1⟩, ⟨10, 1, 1⟩, ⟨11, 1, 1⟩] = some 10 ∧
    weekday 10 = 3 :=
  ⟨rfl, rfl, rfl, rfl, rfl, by decide, rfl, rfl⟩

/-- Claim C6, amended: no weekend-skipping calendar step exists.  The
polygon path uses the previous market day the provider reports when
present and otherwise falls back to the run date minus one calendar day,
whatever its weekday; the yahoo path takes the second-to-last bar's date
of the downloaded window as the previous-session reference. -/
theorem C6_previous_day_selection (d x : Nat) (bars : List DailyBar)
    (h2 : 2 ≤ bars.length) :
    polygon_prev_trading_day (some x) d = x ∧
    polygon_prev_trading_day none d = d - 1 ∧
    yahoo_prev_close_date bars
      = (bars[bars.length - 2]?).map (fun b => b.date) := by
  refine ⟨rfl, rfl, ?_⟩
  rw [yahoo_prev_close_date, dif_neg (by omega),
    List.getElem?_eq_getElem (by omega)]
  simp [List.get_eq_getElem]

/-- Witness for C6 at day 13 and a two-bar window. -/
theorem C6_previous_day_selection_witness :
    polygon_prev_trading_day (some 11) 13 = 11 ∧
    polygon_prev_trading_day none 13 = 13 - 1 ∧
    yahoo_prev_close_date [⟨9, 1, 1⟩, ⟨10, 1, 1⟩]
      = (([⟨9, 1, 1⟩, ⟨10, 1, 1⟩] : List DailyBar)[
          ([⟨9, 1, 1⟩, ⟨10, 1, 1⟩] : List DailyBar).length - 2]?).map
          (fun b => b.date) :=
  C6_previous_day_selection 13 11 [⟨9, 1, 1⟩, ⟨10, 1, 1⟩] (by norm_num)

/-- Claim C7 counterexample: a three-bar window dated 9, 10, 11 whose
most recent closed session is day 11 (the last bar).  The code returns
the second-to-last bar's close, 20, not the close 30 of the bar dated at
the session (spec-modelled as spec_resolve_previous_close); and on a
one-bar window it fails even though a bar for the session exists. -/
theorem C7_counterexample :
    resolve_previous_close [⟨9, 1, 10⟩, ⟨10, 1, 20⟩, ⟨11, 1, 30⟩] = some 20 ∧
    spec_resolve_previous_close [⟨9, 1, 10⟩, ⟨10, 1, 20⟩, ⟨11, 1, 30⟩] 11 = some 30 ∧
    (20 : ℚ) ≠ 30 ∧
    resolve_previous_close [⟨11, 1, 30⟩] = none ∧
    spec_resolve_previous_close [⟨11, 1, 30⟩] 11 = some 30 :=
  ⟨rfl, rfl, by norm_num, rfl, rfl⟩

/-- Claim C7, amended: resolve_previous_close ignores bar dates
entirely: with at least two bars it returns the second-to-last bar's
close (relabelling every date leaves the result unchanged), and it fails
whenever the window holds fewer than two bars, even when a bar for the
session exists. -/
theorem C7_second_to_last (bars bars1 : List DailyBar) (f : Nat → Nat)
    (h2 : 2 ≤ bars.length) (h1 : bars1.length < 2) :
    resolve_previous_close bars
      = (bars[bars.length - 2]?).map (fun b => b.Close) ∧
    resolve_previous_close (bars.map (fun b => ⟨f b.date, b.Open, b.Close⟩))
      = resolve_previous_close bars ∧
    resolve_previous_close bars1 = none := by
  refine ⟨?_, ?_, ?_⟩
  · rw [resolve_previous_close, dif_neg (by omega),
      List.getElem?_eq_getElem (by omega)]
    simp [List.get_eq_getElem]
  · rw [resolve_previous_close, resolve_previous_close]
    simp only [List.length_map]
    rw [dif_neg (by omega), dif_neg (by omega)]
    simp [List.get_eq_getElem, List.getElem_map]
  · rw [resolve_previous_close, dif_pos h1]

/-- Witness for C7 at a two-bar window, a one-bar window, and the date
relabelling d + 1. -/
theorem C7_second_to_last_witness :
    resolve_previous_close [⟨9, 1, 10⟩, ⟨10, 1, 20⟩]
      = (([⟨9, 1, 10⟩, ⟨10, 1, 20⟩] : List DailyBar)[
          ([⟨9, 1, 10⟩, ⟨10, 1, 20⟩] : List DailyBar).length - 2]?).map
          (fun b => b.Close) ∧
    resolve_previous_close
      (([⟨9, 1, 10⟩, ⟨10, 1, 20⟩] : List DailyBar).map
        (fun b => ⟨b.date + 1, b.Open, b.Close⟩))
      = resolve_previous_close [⟨9, 1, 10⟩, ⟨10, 1, 20⟩] ∧
    resolve_previous_close [⟨11, 1, 31⟩] = none :=
  C7_second_to_last [⟨9, 1, 10⟩, ⟨10, 1, 20⟩] [⟨11, 1, 31⟩]
    (fun d => d + 1) (by norm_num) (by norm_num)

/-- Claim C8 counterexample: a single minute bar stamped 8:17 ET.  The
code (target hour 8, so requested time 8:00) accepts it and returns its
close, although its timestamp does not equal the requested hour:minute
exactly (the spec-modelled exact matcher spec_resolve_at_time returns
none), contradicting "matches a minute bar whose exchange-local
timestamp equals the requested hour:minute exactly". -/
theorem C8_counterexample :
    get_premarket_price false [⟨8, 17, some 5⟩] 8 = some 5 ∧
    spec_resolve_at_time [⟨8, 17, some 5⟩] 8 0 = none ∧
    (17 : Nat) ≠ 0 :=
  ⟨rfl, rfl, by decide⟩

/-- premarket_scan returns none when no bar matches the window. -/
lemma premarket_scan_none {th : Nat} :
    ∀ {l : List MinuteBar},
      (∀ x ∈ l, premarket_window_match th x = false) →
        premarket_scan th l = none := by
  intro l
  induction l with
  | nil => intro _; rfl
  | cons b rest ih =>
    intro h
    rw [premarket_scan, if_neg ?_]
    · exact ih (fun x hx => h x (List.mem_cons_of_mem b hx))
    · simp [h b (List.mem_cons_self b rest)]

/-- Claim C8, amended: the resolver matches any bar whose exchange-local
time falls in the sixty-minute window around the target (hour equal to
the target with minute at most 30, or hour equal to target minus one
with minute at least 30), returning the first matching bar's present
close; it returns none (not a fatal failure) on weekends or when no bar
matches, and the caller then uses the regular session open (the last
daily bar's open) as the current price. -/
theorem C8_window_and_fallback (b : MinuteBar) (rest bars1 : List MinuteBar)
    (th : Nat) (c : ℚ) (t : String) (daily : List DailyBar)
    (minute : List MinuteBar) (w : Bool) (r : StockData)
    (hmatch : premarket_window_match th b = true) (hbc : b.Close = some c)
    (hnomatch : ∀ x ∈ bars1, premarket_window_match th x = false)
    (hpm : get_premarket_price w minute 8 = none)
    (h2 : 2 ≤ daily.length)
    (hr : processTicker t (FetchOutcome.ok daily minute w) = some r) :
    get_premarket_price false (b :: rest) th = some c ∧
    get_premarket_price false bars1 th = none ∧
    get_premarket_price true (b :: rest) th = none ∧
    some r.today_open = (daily[daily.length - 1]?).map (fun bb => bb.Open) := by
  refine ⟨?_, ?_, rfl, ?_⟩
  · rw [get_premarket_price, if_neg (by simp), premarket_scan,
      if_pos hmatch, hbc]
  · rw [get_premarket_price, if_neg (by simp)]
    exact premarket_scan_none hnomatch
  · simp only [processTicker] at hr
    split at hr
    · exact Option.noConfusion hr
    · rw [hpm] at hr
      split at hr
      · exact Option.noConfusion hr
      · injection hr with hr2
        subst hr2
        rw [List.getElem?_eq_getElem (by omega)]
        simp [List.get_eq_getElem, Option.getD]

/-- Witness for C8: an 8:00 bar with close 3 is matched; a 12:00 bar is
not; on the two-bar daily window with no pre-market data the produced
record's current price is the last bar's open, 94.5. -/
theorem C8_window_and_fallback_witness :
    get_premarket_price false [⟨8, 0, some 3⟩] 8 = some 3 ∧
    get_premarket_price false [⟨12, 0, some 1⟩] 8 = none ∧
    get_premarket_price true [⟨8, 0, some 3⟩] 8 = none ∧
    some sample_down_record.today_open
      = (([⟨0, 100, 100⟩, ⟨1, 94.5, 95⟩] : List DailyBar)[
          ([⟨0, 100, 100⟩, ⟨1, 94.5, 95⟩] : List DailyBar).length - 1]?).map
          (fun bb => bb.Open) :=
  C8_window_and_fallback ⟨8, 0, some 3⟩ [] [⟨12, 0, some 1⟩] 8 3 "A"
    [⟨0, 100, 100⟩, ⟨1, 94.5, 95⟩] [] false sample_down_record
    (by decide) rfl (by decide) rfl (by norm_num)
    (by norm_num [processTicker, get_premarket_price, premarket_scan,
      sample_down_record])

/-- A configuration with EMAIL_FROM missing, for the startup check. -/
def sample_cfg_nofrom : Cfg :=
  ⟨"yahoo", "", -5, 1, 0, false, "rk", "", "to@x"⟩

/-- Claim C9 counterexample: a run in which every symbol of the universe
fails (zero successful records) exits with code 0 and delivers an empty
report; data-collection total failure therefore has no distinct non-zero
exit code, contradicting "distinct non-zero exit codes for each of the
three failure classes". -/
theorem C9_counterexample :
    successful_downloads ["A", "B"] (fun _ => FetchOutcome.err) = 0 ∧
    main_run sample_cfg_yahoo ["A", "B"] (fun _ => FetchOutcome.err) []
      (fun _ => none) (fun _ => none) true = (0, some ⟨[], [], []⟩) :=
  ⟨rfl, rfl⟩

/-- Claim C9, amended: the process exits 0 on success, 2 for
configuration errors detected at startup before any scanning, and 3 for
delivery failure; data-collection total failure has no exit code of its
own — with a valid configuration and working delivery the run exits 0
whatever the scan produced, including zero successful records. -/
theorem C9_exit_codes (cfg1 cfg2 cfg3 : Cfg) (tickers : List String)
    (fetch : String → FetchOutcome) (dok : Bool)
    (hmiss : cfg1.EMAIL_FROM = "")
    (henv2 : load_env_exit cfg2 = none) (hsrc2 : cfg2.DATA_SOURCE = "yahoo")
    (hfail2 : send_email_exit cfg2 false = some 3)
    (henv3 : load_env_exit cfg3 = none) (hsrc3 : cfg3.DATA_SOURCE = "yahoo")
    (hok3 : send_email_exit cfg3 true = none) :
    main_run cfg1 tickers fetch [] (fun _ => none) (fun _ => none) dok
      = (2, none) ∧
    main_run cfg2 tickers fetch [] (fun _ => none) (fun _ => none) false
      = (3, none) ∧
    main_run cfg3 tickers fetch [] (fun _ => none) (fun _ => none) true
      = (0, some (yahoo_gap_scan cfg3 tickers fetch)) := by
  refine ⟨?_, ?_, ?_⟩
  · rw [main_run]
    have h : load_env_exit cfg1 = some 2 := by
      simp [load_env_exit, hmiss]
    rw [h]
  · rw [main_run, henv2]
    simp only [hsrc2]
    rw [if_neg (by decide), if_pos trivial]
    simp [deliver, hfail2]
  · rw [main_run, henv3]
    simp only [hsrc3]
    rw [if_neg (by decide), if_pos trivial]
    simp [deliver, hok3]

/-- Witness for C9: missing sender exits 2; failed delivery exits 3;
with working delivery a totally failed scan still exits 0. -/
theorem C9_exit_codes_witness :
    main_run sample_cfg_nofrom ["C"] (fun _ => FetchOutcome.err) []
      (fun _ => none) (fun _ => none) true = (2, none) ∧
    main_run sample_cfg_yahoo ["C"] (fun _ => FetchOutcome.err) []
      (fun _ => none) (fun _ => none) false = (3, none) ∧
    main_run sample_cfg_yahoo ["C"] (fun _ => FetchOutcome.err) []
      (fun _ => none) (fun _ => none) true
      = (0, some (yahoo_gap_scan sample_cfg_yahoo ["C"]
          (fun _ => FetchOutcome.err))) :=
  C9_exit_codes sample_cfg_nofrom sample_cfg_yahoo sample_cfg_yahoo ["C"]
    (fun _ => FetchOutcome.err) true rfl rfl rfl rfl rfl rfl rfl

/-- Unpacking membership in the yahoo gap-down bucket filter. -/
lemma mem_gap_down_rows {cfg : Cfg} {all : List StockData} {r : StockData}
    (h : r ∈ gap_down_rows cfg all) :
    r ∈ all ∧ r.gap_pct ≤ cfg.MIN_GAP_DOWN_PCT := by
  have h2 := List.mem_filter.1 h
  exact ⟨h2.1, of_decide_eq_true h2.2⟩

/-- Unpacking membership in the yahoo gap-up bucket filter. -/
lemma mem_gap_up_rows {cfg : Cfg} {all : List StockData} {s : StockData}
    (h : s ∈ gap_up_rows cfg all) :
    s ∈ all ∧ ¬ s.gap_pct ≤ cfg.MIN_GAP_DOWN_PCT ∧
      cfg.MIN_GAP_UP_PCT ≤ s.gap_pct := by
  have h2 := List.mem_filter.1 h
  rw [Bool.and_eq_true, Bool.not_eq_true'] at h2
  exact ⟨h2.1, of_decide_eq_false h2.2.1, of_decide_eq_true h2.2.2⟩

/-- Claim C10: bucket membership invariants.  In every ScanResult of
either scan path: every record in gap_downs has gap_pct at most the down
threshold and does not sit in gap_ups; every record in gap_ups has
gap_pct at least the up threshold and does not sit in gap_downs; and
every bucketed record also appears in the all_data view. -/
theorem C10_bucket_invariants (cfg : Cfg) (tickers : List String)
    (fetch : String → FetchOutcome) (open_today : List (String × ℚ))
    (prev_close : String → Option ℚ) (meta : String → Option PolyMeta) :
    (∀ r ∈ (yahoo_gap_scan cfg tickers fetch).gap_downs,
      r.gap_pct ≤ cfg.MIN_GAP_DOWN_PCT ∧
      r ∉ (yahoo_gap_scan cfg tickers fetch).gap_ups ∧
      r ∈ (yahoo_gap_scan cfg tickers fetch).all_data) ∧
    (∀ s ∈ (yahoo_gap_scan cfg tickers fetch).gap_ups,
      cfg.MIN_GAP_UP_PCT ≤ s.gap_pct ∧
      s ∉ (yahoo_gap_scan cfg tickers fetch).gap_downs ∧
      s ∈ (yahoo_gap_scan cfg tickers fetch).all_data) ∧
    (∀ p ∈ (polygon_gap_scan cfg open_today prev_close meta).gap_downs,
      p.gap_pct ≤ cfg.MIN_GAP_DOWN_PCT ∧
      p ∉ (polygon_gap_scan cfg open_today prev_close meta).gap_ups ∧
      p ∈ (polygon_gap_scan cfg open_today prev_close meta).all_data) ∧
    (∀ q ∈ (polygon_gap_scan cfg open_today prev_close meta).gap_ups,
      cfg.MIN_GAP_UP_PCT ≤ q.gap_pct ∧
      q ∉ (polygon_gap_scan cfg open_today prev_close meta).gap_downs ∧
      q ∈ (polygon_gap_scan cfg open_today prev_close meta).all_data) := by
  refine ⟨?_, ?_, ?_, ?_⟩
  · intro r hr
    have hr1 := mem_gap_down_rows (mem_sortByGapAsc.1 hr)
    refine ⟨hr1.2, ?_, mem_sortByGapAsc.2 hr1.1⟩
    intro hcon
    exact (mem_gap_up_rows (mem_sortByGapDesc.1 hcon)).2.1 hr1.2
  · intro s hs
    have hs1 := mem_gap_up_rows (mem_sortByGapDesc.1 hs)
    refine ⟨hs1.2.2, ?_, mem_sortByGapAsc.2 hs1.1⟩
    intro hcon
    exact hs1.2.1 (mem_gap_down_rows (mem_sortByGapAsc.1 hcon)).2
  · intro p hp
    obtain ⟨hpmem, hpb⟩ := List.mem_filter.1 (mem_sortByGapAsc.1 hp)
    simp only [Bool.and_eq_true, Bool.not_eq_true', and_assoc] at hpb
    obtain ⟨hpskip, hple⟩ := hpb
    refine ⟨of_decide_eq_true hple, ?_, mem_sortByGapAsc.2 hpmem⟩
    intro hcon
    obtain ⟨_, hcb⟩ := List.mem_filter.1 (mem_sortByGapDesc.1 hcon)
    simp only [Bool.and_eq_true, Bool.not_eq_true', and_assoc] at hcb
    rw [hple] at hcb
    exact Bool.noConfusion hcb.2.1
  · intro q hq
    obtain ⟨hqmem, hqb⟩ := List.mem_filter.1 (mem_sortByGapDesc.1 hq)
    simp only [Bool.and_eq_true, Bool.not_eq_true', and_assoc] at hqb
    obtain ⟨hqskip, hqnd, hqup⟩ := hqb
    refine ⟨of_decide_eq_true hqup, ?_, mem_sortByGapAsc.2 hqmem⟩
    intro hcon
    obtain ⟨_, hcb⟩ := List.mem_filter.1 (mem_sortByGapAsc.1 hcon)
    simp only [Bool.and_eq_true, Bool.not_eq_true', and_assoc] at hcb
    rw [hqnd] at hcb
    exact Bool.noConfusion hcb.2

/-- The record the yahoo scan builds for ticker B: 40 to 50, gap +25. -/
def sample_up_record : StockData := ⟨"B", 40, 50, 25⟩

/-- The record polygon_rows builds for ticker D: previous close 50,
today 55, gap +10. -/
def sample_poly_up_record : StockData := ⟨"D", 50, 55, 10⟩

/-- Polygon sample: today prices for tickers C and D. -/
def sample_poly_open : List (String × ℚ) := [("C", 30), ("D", 55)]

/-- Polygon sample: previous closes, 40 for C and 50 otherwise. -/
def sample_poly_prev : String → Option ℚ :=
  fun t => if t = "C" then some 40 else some 50

/-- Witness for C10 on a two-ticker yahoo scan (A gaps down 5.5, B gaps
up 25) and a two-ticker polygon scan (C gaps down 25, D gaps up 10):
each of the four bucket statements applied to a concrete member. -/
theorem C10_bucket_invariants_witness :
    (sample_down_record.gap_pct ≤ sample_cfg_yahoo.MIN_GAP_DOWN_PCT ∧
      sample_down_record ∉
        (yahoo_gap_scan sample_cfg_yahoo ["A", "B"] sample_fetch_good).gap_ups ∧
      sample_down_record ∈
        (yahoo_gap_scan sample_cfg_yahoo ["A", "B"] sample_fetch_good).all_data) ∧
    (sample_cfg_yahoo.MIN_GAP_UP_PCT ≤ sample_up_record.gap_pct ∧
      sample_up_record ∉
        (yahoo_gap_scan sample_cfg_yahoo ["A", "B"] sample_fetch_good).gap_downs ∧
      sample_up_record ∈
        (yahoo_gap_scan sample_cfg_yahoo ["A", "B"] sample_fetch_good).all_data) ∧
    (sample_poly_record.gap_pct ≤ sample_cfg_yahoo.MIN_GAP_DOWN_PCT ∧
      sample_poly_record ∉
        (polygon_gap_scan sample_cfg_yahoo sample_poly_open sample_poly_prev
          (fun _ => none)).gap_ups ∧
      sample_poly_record ∈
        (polygon_gap_scan sample_cfg_yahoo sample_poly_open sample_poly_prev
          (fun _ => none)).all_data) ∧
    (sample_cfg_yahoo.MIN_GAP_UP_PCT ≤ sample_poly_up_record.gap_pct ∧
      sample_poly_up_record ∉
        (polygon_gap_scan sample_cfg_yahoo sample_poly_open sample_poly_prev
          (fun _ => none)).gap_downs ∧
      sample_poly_up_record ∈
        (polygon_gap_scan sample_cfg_yahoo sample_poly_open sample_poly_prev
          (fun _ => none)).all_data) := by
  have h := C10_bucket_invariants sample_cfg_yahoo ["A", "B"]
    sample_fetch_good sample_poly_open sample_poly_prev (fun _ => none)
  refine ⟨h.1 sample_down_record ?_, h.2.1 sample_up_record ?_,
    h.2.2.1 sample_poly_record ?_, h.2.2.2 sample_poly_up_record ?_⟩
  · simp [yahoo_gap_scan, scanned, sortByGapAsc, sortByGapDesc,
      gap_down_rows, gap_up_rows, sample_fetch_good, sample_cfg_yahoo,
      processTicker, get_premarket_price, premarket_scan, gapLE, gapGE,
      sample_down_record]
    norm_num
  · simp [yahoo_gap_scan, scanned, sortByGapAsc, sortByGapDesc,
      gap_down_rows, gap_up_rows, sample_fetch_good, sample_cfg_yahoo,
      processTicker, get_premarket_price, premarket_scan, gapLE, gapGE,
      sample_up_record]
    norm_num
  · simp [polygon_gap_scan, polygon_rows, polygon_skip, sortByGapAsc,
      sortByGapDesc, sample_poly_open, sample_poly_prev, sample_cfg_yahoo,
      gapLE, gapGE, sample_poly_record]
    norm_num
  · simp [polygon_gap_scan, polygon_rows, polygon_skip, sortByGapAsc,
      sortByGapDesc, sample_poly_open, sample_poly_prev, sample_cfg_yahoo,
      gapLE, gapGE, sample_poly_up_record]
    norm_num

end GapDown
